import Mathlib

/-
  Verification development for the CloudflareLinker repository.

  The repository ships a React frontend (form handling, session handling,
  API wrappers, date formatting) together with a backend that exposes the
  DNS reconciliation API.  The backend sources are not part of the tree
  under verification, so the Reconciler / Record Store / Provider Gateway
  are modelled from the specification (spec.md §3, §4); every definition
  modelled that way carries a doc comment starting with
  "Modelled from the spec".  The frontend definitions are translated
  directly from the JavaScript sources.
-/

/-- DNS record types supported by the application (spec §3, and the
record-type select of the DNS record form). -/
inductive RecordType
  | A
  | AAAA
  | CNAME
  | TXT
  | MX
deriving DecidableEq

/-- Modelled from the spec (§3 DnsRecord): a stored DNS record intent,
with provider identity, desired state, policy and observed state. -/
structure DnsRecord where
  id : Nat
  owner : Nat
  zone_id : String
  zone_name : String
  record_type : RecordType
  record_name : String
  content : String
  ttl : Nat
  proxied : Bool
  auto_update : Bool
  last_updated_ip : Option String
  updated_at : Option Nat
  provider_record_id : String
deriving DecidableEq

/-- Log levels (spec §3 LogEntry). -/
inductive LogLevel
  | INFO
  | SUCCESS
  | WARNING
  | ERROR
deriving DecidableEq

/-- Modelled from the spec (§3 LogEntry): an append-only activity log
entry. -/
structure LogEntry where
  level : LogLevel
  message : String
  ip_address : Option String
deriving DecidableEq

/-- Modelled from the spec (§4.1 Provider Gateway): the outcome of the
outbound provider and IP-lookup calls, as an oracle.  `currentIp` is the
public IP the lookup service reports; `updateResult` and `deleteResult`
are keyed by the provider record id; `createResult` carries the
provider-returned record id on success. -/
structure Gateway where
  currentIp : String
  updateResult : String → Except String Unit
  createResult : Except String String
  deleteResult : String → Except String Unit

/-- Outcome of reconciling a single record (spec §4.3). -/
inductive ReconcileOutcome
  | noop
  | skipped
  | updated
  | failed (reason : String)
deriving DecidableEq

/-- Result of a single-record reconcile: the per-record outcome value,
the record as persisted afterwards, the log entries appended, and the
number of provider update calls issued. -/
structure ReconcileResult where
  outcome : ReconcileOutcome
  record : DnsRecord
  logs : List LogEntry
  providerCalls : Nat
deriving DecidableEq

/-- A record is up to date with respect to an observed public IP when the
returned IP equals `last_updated_ip` and `content` already equals that IP
(spec §4.3 step 3). -/
def upToDate (ip : String) (r : DnsRecord) : Prop :=
  r.last_updated_ip = some ip ∧ r.content = ip

instance decUpToDate (ip : String) (r : DnsRecord) : Decidable (upToDate ip r) := by
  unfold upToDate
  infer_instance

/-- Record-store mutation applied on a successful provider update
(spec §4.3 step 4: content=ip, last_updated_ip=ip, updated_at=now). -/
def applyIpUpdate (ip : String) (now : Nat) (r : DnsRecord) : DnsRecord :=
  { r with content := ip, last_updated_ip := some ip, updated_at := some now }

/-- Modelled from the spec: the SUCCESS log entry naming the record and
the new IP (spec §4.3 step 4). -/
def successLog (r : DnsRecord) (ip : String) : LogEntry :=
  ⟨LogLevel.SUCCESS, "Updated record " ++ r.record_name ++ " to " ++ ip, some ip⟩

/-- Modelled from the spec: the ERROR log entry naming the record and the
failure reason (spec §4.3 step 4). -/
def errorLog (r : DnsRecord) (reason : String) : LogEntry :=
  ⟨LogLevel.ERROR, "Failed to update record " ++ r.record_name ++ ": " ++ reason, none⟩

/-- Modelled from the spec (§4.3 steps 3-4, shared by `reconcile` and
`reconcileAll`): compare the record to the observed IP, skip when up to
date, otherwise issue the provider update and record the outcome. -/
def reconcileStep (gw : Gateway) (ip : String) (now : Nat) (r : DnsRecord) : ReconcileResult :=
  if upToDate ip r then
    ⟨ReconcileOutcome.skipped, r, [], 0⟩
  else
    match gw.updateResult r.provider_record_id with
    | Except.ok _ =>
        ⟨ReconcileOutcome.updated, applyIpUpdate ip now r, [successLog r ip], 1⟩
    | Except.error e =>
        ⟨ReconcileOutcome.failed e, r, [errorLog r e], 1⟩

/-- Modelled from the spec (§4.3 single-record update, the backend
Reconciler is absent from the frontend sources): require an A/AAAA record
type, fetch the current public IP, then apply steps 3-4. -/
def reconcile (gw : Gateway) (r : DnsRecord) (now : Nat) : ReconcileResult :=
  if r.record_type = RecordType.A ∨ r.record_type = RecordType.AAAA then
    reconcileStep gw gw.currentIp now r
  else
    ⟨ReconcileOutcome.noop, r, [], 0⟩

/-- Modelled from the spec (§4.3 batch update): a record takes part in
`reconcileAll` when it is auto_update-enabled and of type A or AAAA. -/
def eligible (r : DnsRecord) : Bool :=
  r.auto_update && decide (r.record_type = RecordType.A ∨ r.record_type = RecordType.AAAA)

/-- Summary returned by the batch update: counts of updated, skipped and
failed records plus the failed record identifiers with reasons
(spec §4.3). -/
structure Summary where
  updated : Nat
  skipped : Nat
  failed : Nat
  failures : List (Nat × String)
deriving DecidableEq

/-- Result of the batch update: the summary, the post-state of every
record of the batch, the appended log entries and the total number of
provider update calls. -/
structure BatchResult where
  summary : Summary
  records : List DnsRecord
  logs : List LogEntry
  providerCalls : Nat
deriving DecidableEq

/-- Contribution of one outcome to the updated count. -/
def outcomeUpdatedCount : ReconcileOutcome → Nat
  | ReconcileOutcome.updated => 1
  | _ => 0

/-- Contribution of one outcome to the skipped count. -/
def outcomeSkippedCount : ReconcileOutcome → Nat
  | ReconcileOutcome.skipped => 1
  | _ => 0

/-- Contribution of one outcome to the failed count. -/
def outcomeFailedCount : ReconcileOutcome → Nat
  | ReconcileOutcome.failed _ => 1
  | _ => 0

/-- Contribution of one outcome to the failure list. -/
def outcomeFailureList (recId : Nat) : ReconcileOutcome → List (Nat × String)
  | ReconcileOutcome.failed e => [(recId, e)]
  | _ => []

/-- The noop result for a record that takes no part in a batch run. -/
def noopResult (r : DnsRecord) : ReconcileResult :=
  ⟨ReconcileOutcome.noop, r, [], 0⟩

/-- Modelled from the spec (§4.3 batch update): apply steps 3-4 to every
eligible record of the batch against the single observed IP, continuing
past per-record failures and accumulating the summary. -/
def reconcileAllGo (gw : Gateway) (ip : String) (now : Nat) : List DnsRecord → BatchResult
  | [] => ⟨⟨0, 0, 0, []⟩, [], [], 0⟩
  | r :: rest =>
    let hd := if eligible r then reconcileStep gw ip now r else noopResult r
    let tl := reconcileAllGo gw ip now rest
    ⟨⟨outcomeUpdatedCount hd.outcome + tl.summary.updated,
      outcomeSkippedCount hd.outcome + tl.summary.skipped,
      outcomeFailedCount hd.outcome + tl.summary.failed,
      outcomeFailureList r.id hd.outcome ++ tl.summary.failures⟩,
     hd.record :: tl.records,
     hd.logs ++ tl.logs,
     hd.providerCalls + tl.providerCalls⟩

/-- Modelled from the spec: the one aggregate log entry appended by the
batch update (spec §4.3). -/
def batchSummaryLog (s : Summary) : LogEntry :=
  ⟨LogLevel.INFO,
   "Batch update finished: " ++ toString s.updated ++ " updated, "
     ++ toString s.skipped ++ " skipped, " ++ toString s.failed ++ " failed",
   none⟩

/-- Modelled from the spec (§4.3 batch update, backend absent from the
frontend sources): fetch the public IP once, apply steps 3-4 per record,
append the aggregate log entry. -/
def reconcileAll (gw : Gateway) (records : List DnsRecord) (now : Nat) : BatchResult :=
  let go := reconcileAllGo gw gw.currentIp now records
  ⟨go.summary, go.records, go.logs ++ [batchSummaryLog go.summary], go.providerCalls⟩

/-- True exactly when a provider call outcome is a failure. -/
def isProviderError : Except String Unit → Bool
  | Except.error _ => true
  | Except.ok _ => false

/-- The reason carried by a failed provider call outcome. -/
def providerErrMsg : Except String Unit → String
  | Except.error e => e
  | Except.ok _ => ""

/-- A record type is an address type when it is A or AAAA. -/
def addressType (t : RecordType) : Prop :=
  t = RecordType.A ∨ t = RecordType.AAAA

instance decAddressType (t : RecordType) : Decidable (addressType t) := by
  unfold addressType
  infer_instance

/-- Request body of the record creation path (spec §6 POST /dns/ and the
DNS record form of the frontend). -/
structure CreateData where
  zone_id : String
  zone_name : String
  record_type : RecordType
  record_name : String
  content : String
  ttl : Nat
  proxied : Bool
  auto_update : Bool
deriving DecidableEq

/-- Modelled from the spec (§4.2 Record Store, backend absent from the
frontend sources): write-time validation of the DnsRecord invariants.
Rejects a write where auto_update is set and the record type is not A or
AAAA, and rejects empty content for an auto_update=false A/AAAA record or
for any non-A/AAAA record. -/
def validateWrite (d : CreateData) : Except String Unit :=
  if d.auto_update = true ∧ ¬ addressType d.record_type then
    Except.error "ConflictError: auto_update requires record type A or AAAA"
  else if d.content = "" ∧ ((d.auto_update = false ∧ addressType d.record_type) ∨ ¬ addressType d.record_type) then
    Except.error "ValidationError: content must not be empty"
  else
    Except.ok ()

/-- Result of a Record Store mutation: the store afterwards, the explicit
result value surfaced to the caller, the number of provider calls issued
and the log entries appended. -/
structure StoreResult where
  store : List DnsRecord
  result : Except String Unit
  providerCalls : Nat
  logs : List LogEntry

/-- The locally persisted record built from a create request and the
provider-returned record id (spec §4.3 creation path). -/
def mkDnsRecord (owner nextId : Nat) (d : CreateData) (pid : String) (now : Nat) : DnsRecord :=
  ⟨nextId, owner, d.zone_id, d.zone_name, d.record_type, d.record_name,
   d.content, d.ttl, d.proxied, d.auto_update, none, some now, pid⟩

/-- Modelled from the spec (§4.3 creation path, backend absent from the
frontend sources): validate the request, call the Provider Gateway
create, then persist locally using the provider-returned record id; on a
provider failure nothing is persisted locally. -/
def createRecord (gw : Gateway) (store : List DnsRecord) (owner nextId : Nat)
    (d : CreateData) (now : Nat) : StoreResult :=
  match validateWrite d with
  | Except.error e => ⟨store, Except.error e, 0, []⟩
  | Except.ok _ =>
    match gw.createResult with
    | Except.error e =>
        ⟨store, Except.error e, 1,
         [⟨LogLevel.ERROR, "Failed to create record " ++ d.record_name ++ ": " ++ e, none⟩]⟩
    | Except.ok pid =>
        ⟨store ++ [mkDnsRecord owner nextId d pid now], Except.ok (), 1,
         [⟨LogLevel.SUCCESS, "Created record " ++ d.record_name, none⟩]⟩

/-- Modelled from the spec (§4.3 deletion path, backend absent from the
frontend sources): look the record up, call the Provider Gateway delete,
and remove the record from the Record Store only when the provider call
succeeded; on a provider failure the local record is retained and the
failure is surfaced to the caller. -/
def deleteRecord (gw : Gateway) (store : List DnsRecord) (recId : Nat) : StoreResult :=
  match store.find? (fun q => q.id == recId) with
  | none => ⟨store, Except.error "record not found", 0, []⟩
  | some r =>
    match gw.deleteResult r.provider_record_id with
    | Except.ok _ =>
        ⟨store.filter (fun q => q.id != recId), Except.ok (), 1,
         [⟨LogLevel.SUCCESS, "Deleted record " ++ r.record_name, none⟩]⟩
    | Except.error e =>
        ⟨store, Except.error e, 1,
         [⟨LogLevel.ERROR, "Failed to delete record " ++ r.record_name ++ ": " ++ e, none⟩]⟩

/-
  Frontend definitions, translated from the JavaScript sources.
-/

/-- Whether the DNS record card renders the manual update-IP action; the
card only offers it for A and AAAA records
(DnsRecordCard footer, `record.record_type === 'A' || record.record_type === 'AAAA'`). -/
def showUpdateIpButton (t : RecordType) : Bool :=
  decide (t = RecordType.A) || decide (t = RecordType.AAAA)

/-- Client session state: the token persisted in localStorage, the
sessionStorage contents, the React state token and user, and the axios
default Authorization header (AuthContext). -/
structure SessionState where
  localStorageToken : Option String
  sessionStorage : List (String × String)
  stateToken : Option String
  user : Option String
  axiosAuthHeader : Option String
deriving DecidableEq

/-- The logout handler of AuthContext: removes the token from
localStorage, clears sessionStorage, resets the state token and user, and
deletes the axios default Authorization header. -/
def logout (_ : SessionState) : SessionState :=
  ⟨none, [], none, none, none⟩

/-- Error handling of the fetchUser profile call in AuthContext: a 401
response triggers logout, any other failure leaves the session as is. -/
def fetchUserOnError (status : Nat) (s : SessionState) : SessionState :=
  if status = 401 then logout s else s

/-- Error handling shared by the dns and logs API wrappers
(src/front/src/api/dns.js and the logs wrappers): the error is written to
the console and rethrown; the session state is not touched. -/
def apiCatchAndRethrow (_status : Nat) (s : SessionState) : SessionState :=
  s

/-- The client-side error handlers that can observe an HTTP error status:
the fetchUser handler of AuthContext, and the catch-and-rethrow handler
shared by the dns and logs API wrappers. -/
def clientErrorHandlers : List (Nat → SessionState → SessionState) :=
  [fetchUserOnError, apiCatchAndRethrow]

/-- A session is cleared when no bearer token is stored, no user state
remains and no axios Authorization default header remains. -/
def sessionCleared (s : SessionState) : Prop :=
  s.localStorageToken = none ∧ s.user = none ∧ s.axiosAuthHeader = none

/-- The axios request interceptor of AuthContext: it attaches a bearer
Authorization header exactly when a token is present in localStorage. -/
def attachAuthHeader (s : SessionState) : Option String :=
  s.localStorageToken.map (fun t => "Bearer " ++ t)

/-- Initial data handed to the DNS record edit form
(DnsRecordForm props.initialData). -/
structure FormInitialData where
  zone_id : String
  zone_name : String
  record_type : String
  record_name : String
  content : String
  ttl : Nat
  proxied : Bool
  auto_update : Bool
deriving DecidableEq

/-- JavaScript `a || d` on an optional string: the string when present
and truthy (non-empty), the default otherwise. -/
def jsOrString (a : Option String) (d : String) : String :=
  match a with
  | some s => if s = "" then d else s
  | none => d

/-- JavaScript `a || d` on an optional number: the number when present
and truthy (non-zero), the default otherwise. -/
def jsOrNat (a : Option Nat) (d : Nat) : Nat :=
  match a with
  | some n => if n = 0 then d else n
  | none => d

/-- JavaScript `a || d` on an optional boolean: `true` when present and
true, the default otherwise. -/
def jsOrBool (a : Option Bool) (d : Bool) : Bool :=
  match a with
  | some true => true
  | _ => d

/-- The form state of DnsRecordForm. -/
structure DnsFormState where
  zone_id : String
  zone_name : String
  record_type : String
  record_name : String
  content : String
  ttl : Nat
  proxied : Bool
  auto_update : Bool
deriving DecidableEq

/-- The useState initializer of DnsRecordForm: every field falls back to
its default through JavaScript `||`, in particular
`auto_update: initialData?.auto_update || true`. -/
def initialFormState (initialData : Option FormInitialData) : DnsFormState :=
  { zone_id := jsOrString (initialData.map (fun d => d.zone_id)) ""
    zone_name := jsOrString (initialData.map (fun d => d.zone_name)) ""
    record_type := jsOrString (initialData.map (fun d => d.record_type)) "A"
    record_name := jsOrString (initialData.map (fun d => d.record_name)) ""
    content := jsOrString (initialData.map (fun d => d.content)) ""
    ttl := jsOrNat (initialData.map (fun d => d.ttl)) 1
    proxied := jsOrBool (initialData.map (fun d => d.proxied)) false
    auto_update := jsOrBool (initialData.map (fun d => d.auto_update)) true }

/-- A JavaScript value passed to formatDate: null, undefined, or a
string. -/
inductive JsValue
  | null
  | undefined
  | str (s : String)
deriving DecidableEq

/-- JavaScript falsiness of a formatDate argument: null, undefined and
the empty string are falsy. -/
def jsFalsy : JsValue → Bool
  | JsValue.null => true
  | JsValue.undefined => true
  | JsValue.str s => decide (s = "")

/-- The formatDate helper of src (lib/utils): a falsy argument yields
"N/A"; otherwise the string is parsed as a date (`new Date`, abstracted
by `parseDate`, `none` standing for an invalid date whose time is NaN)
and an invalid date yields "Date invalide", a valid one the
Intl-formatted date (abstracted by `intlFormat`). -/
def formatDate (parseDate : String → Option Int) (intlFormat : Int → String) : JsValue → String
  | JsValue.null => "N/A"
  | JsValue.undefined => "N/A"
  | JsValue.str s =>
    if s = "" then "N/A"
    else
      match parseDate s with
      | none => "Date invalide"
      | some t => intlFormat t

/-
  Concrete data used by the witnesses and counterexamples.
-/

/-- A gateway whose IP lookup is stable and whose provider calls all
succeed. -/
def c1Gateway : Gateway :=
  ⟨"1.2.3.4", fun _ => Except.ok (), Except.ok "cf-new", fun _ => Except.ok ()⟩

/-- An A record already equal to the observed public IP. -/
def c1RecordInSync : DnsRecord :=
  ⟨1, 1, "z1", "example.com", RecordType.A, "www", "1.2.3.4", 1, false, true,
   some "1.2.3.4", some 10, "cf-www"⟩

/-- An A record whose content differs from the observed public IP. -/
def c1RecordStale : DnsRecord :=
  ⟨2, 1, "z1", "example.com", RecordType.A, "home", "9.9.9.9", 1, false, true,
   some "9.9.9.9", some 10, "cf-home"⟩

/-- A gateway with all provider calls succeeding. -/
def c2Gateway : Gateway :=
  ⟨"5.6.7.8", fun _ => Except.ok (), Except.ok "cf-new", fun _ => Except.ok ()⟩

/-- A TXT record. -/
def c2TxtRecord : DnsRecord :=
  ⟨3, 1, "z1", "example.com", RecordType.TXT, "spf", "v=spf1 -all", 1, false, false,
   none, none, "cf-txt"⟩

/-- A gateway whose provider update fails exactly for the provider record
id cf-bad. -/
def c3Gateway : Gateway :=
  ⟨"5.6.7.8",
   fun pid => if pid = "cf-bad" then Except.error "provider rejected the update" else Except.ok (),
   Except.ok "cf-new", fun _ => Except.ok ()⟩

/-- An out-of-sync auto-update A record whose provider update succeeds. -/
def c3GoodRecord : DnsRecord :=
  ⟨1, 1, "z1", "example.com", RecordType.A, "www", "1.1.1.1", 1, false, true,
   some "1.1.1.1", some 10, "cf-good"⟩

/-- An out-of-sync auto-update A record whose provider update fails. -/
def c3BadRecord : DnsRecord :=
  ⟨2, 1, "z1", "example.com", RecordType.A, "api", "2.2.2.2", 1, false, true,
   some "2.2.2.2", some 10, "cf-bad"⟩

/-- An auto-update A record already equal to the observed public IP. -/
def c3InSyncRecord : DnsRecord :=
  ⟨3, 1, "z1", "example.com", RecordType.A, "cdn", "5.6.7.8", 1, false, true,
   some "5.6.7.8", some 10, "cf-sync"⟩

/-- A gateway whose provider update always fails. -/
def c4Gateway : Gateway :=
  ⟨"5.6.7.8", fun _ => Except.error "cloudflare: invalid token", Except.ok "cf-new",
   fun _ => Except.ok ()⟩

/-- An out-of-sync AAAA record. -/
def c4Record : DnsRecord :=
  ⟨4, 1, "z1", "example.com", RecordType.AAAA, "v6", "::1", 1, false, true,
   some "::1", some 10, "cf-v6"⟩

/-- A gateway whose provider delete always fails. -/
def c5Gateway : Gateway :=
  ⟨"5.6.7.8", fun _ => Except.ok (), Except.ok "cf-new",
   fun _ => Except.error "cloudflare: delete failed"⟩

/-- A stored CNAME record. -/
def c5Record : DnsRecord :=
  ⟨5, 1, "z1", "example.com", RecordType.CNAME, "alias", "example.org", 1, false, false,
   none, none, "cf-alias"⟩

/-- A one-record store. -/
def c5Store : List DnsRecord := [c5Record]

/-- A gateway whose provider create succeeds with record id cf-created. -/
def c6Gateway : Gateway :=
  ⟨"5.6.7.8", fun _ => Except.ok (), Except.ok "cf-created", fun _ => Except.ok ()⟩

/-- A gateway whose provider create fails. -/
def c6FailGateway : Gateway :=
  ⟨"5.6.7.8", fun _ => Except.ok (), Except.error "cloudflare: create failed",
   fun _ => Except.ok ()⟩

/-- A valid create request for an auto-update A record. -/
def c6Data : CreateData :=
  ⟨"z1", "example.com", RecordType.A, "www", "5.6.7.8", 1, false, true⟩

/-- A gateway for the validation claim; its provider create succeeds. -/
def c7Gateway : Gateway :=
  ⟨"5.6.7.8", fun _ => Except.ok (), Except.ok "cf-created", fun _ => Except.ok ()⟩

/-- An invalid create request: auto_update on a TXT record. -/
def c7BadData : CreateData :=
  ⟨"z1", "example.com", RecordType.TXT, "spf", "v=spf1 -all", 1, false, true⟩

/-- An invalid create request: empty content on a manual A record. -/
def c7EmptyData : CreateData :=
  ⟨"z1", "example.com", RecordType.A, "www", "", 1, false, false⟩

/-- A live client session holding a bearer token. -/
def c8Session : SessionState :=
  ⟨some "tok123", [("cached", "v")], some "tok123", some "admin", some "Bearer tok123"⟩

/-- A date parser recognizing exactly one ISO date string. -/
def c10ParseDate : String → Option Int :=
  fun s => if s = "2024-01-01T00:00:00Z" then some 1704067200 else none

/-- A fixed Intl date formatter. -/
def c10IntlFormat : Int → String :=
  fun _ => "1 janv. 2024, 00:00"

/-
  Helper lemmas.
-/

/-- An A or AAAA record is reconciled through the shared steps 3-4. -/
lemma reconcile_eq_step (gw : Gateway) (r : DnsRecord) (now : Nat)
    (ht : r.record_type = RecordType.A ∨ r.record_type = RecordType.AAAA) :
    reconcile gw r now = reconcileStep gw gw.currentIp now r := by
  unfold reconcile
  rw [if_pos ht]

/-- An up-to-date record is skipped with no provider call and no log. -/
lemma reconcileStep_of_upToDate (gw : Gateway) (ip : String) (now : Nat) (r : DnsRecord)
    (h : upToDate ip r) :
    reconcileStep gw ip now r = ⟨ReconcileOutcome.skipped, r, [], 0⟩ := by
  unfold reconcileStep
  rw [if_pos h]

/-- A stale record whose provider update succeeds is updated in the store
and logged as SUCCESS, with one provider call. -/
lemma reconcileStep_of_ok (gw : Gateway) (ip : String) (now : Nat) (r : DnsRecord)
    (h : ¬ upToDate ip r) (hok : gw.updateResult r.provider_record_id = Except.ok ()) :
    reconcileStep gw ip now r
      = ⟨ReconcileOutcome.updated, applyIpUpdate ip now r, [successLog r ip], 1⟩ := by
  unfold reconcileStep
  rw [if_neg h, hok]

/-- A stale record whose provider update fails is left unchanged and
logged as ERROR, with one provider call. -/
lemma reconcileStep_of_error (gw : Gateway) (ip : String) (now : Nat) (r : DnsRecord)
    (e : String) (h : ¬ upToDate ip r)
    (herr : gw.updateResult r.provider_record_id = Except.error e) :
    reconcileStep gw ip now r = ⟨ReconcileOutcome.failed e, r, [errorLog r e], 1⟩ := by
  unfold reconcileStep
  rw [if_neg h, herr]

/-- Applying an IP update preserves the record type. -/
lemma applyIpUpdate_record_type (ip : String) (now : Nat) (r : DnsRecord) :
    (applyIpUpdate ip now r).record_type = r.record_type := rfl

/-- A record that just received an IP update is up to date for that IP. -/
lemma upToDate_applyIpUpdate (ip : String) (now : Nat) (r : DnsRecord) :
    upToDate ip (applyIpUpdate ip now r) := by
  unfold upToDate applyIpUpdate
  exact ⟨rfl, rfl⟩

/-
  Claim theorems.
-/

/-- Claim C2: for every record whose type is neither A nor AAAA, reconcile
is a no-op — no provider call is issued, no log entry is appended, the
record is unchanged — and the record card offers no manual update action
for such a record. -/
theorem reconcile_non_address_is_noop (gw : Gateway) (r : DnsRecord) (now : Nat)
    (h : r.record_type ≠ RecordType.A ∧ r.record_type ≠ RecordType.AAAA) :
    (reconcile gw r now).providerCalls = 0 ∧
    (reconcile gw r now).logs = [] ∧
    (reconcile gw r now).record = r ∧
    (reconcile gw r now).outcome = ReconcileOutcome.noop ∧
    showUpdateIpButton r.record_type = false := by
  have hc : ¬ (r.record_type = RecordType.A ∨ r.record_type = RecordType.AAAA) := by
    rintro (hA | hA)
    · exact h.1 hA
    · exact h.2 hA
  have hr : reconcile gw r now = ⟨ReconcileOutcome.noop, r, [], 0⟩ := by
    unfold reconcile
    rw [if_neg hc]
  rw [hr]
  refine ⟨rfl, rfl, rfl, rfl, ?_⟩
  simp [showUpdateIpButton, h.1, h.2]

/-- Claim C2 witness: a concrete TXT record handed to reconcile. -/
theorem reconcile_non_address_is_noop_witness :
    (c2TxtRecord.record_type ≠ RecordType.A ∧ c2TxtRecord.record_type ≠ RecordType.AAAA) ∧
    (reconcile c2Gateway c2TxtRecord 0).providerCalls = 0 ∧
    (reconcile c2Gateway c2TxtRecord 0).logs = [] ∧
    (reconcile c2Gateway c2TxtRecord 0).record = c2TxtRecord ∧
    (reconcile c2Gateway c2TxtRecord 0).outcome = ReconcileOutcome.noop ∧
    showUpdateIpButton c2TxtRecord.record_type = false := by
  have h := reconcile_non_address_is_noop c2Gateway c2TxtRecord 0 (by decide)
  exact ⟨by decide, h.1, h.2.1, h.2.2.1, h.2.2.2.1, h.2.2.2.2⟩

/-- Claim C9: the DnsRecordForm state initializer sets auto_update to
true for every initialData, in particular when editing a record whose
auto_update is false; the initializer never yields false. -/
theorem initialFormState_auto_update_true (initialData : Option FormInitialData) :
    (initialFormState initialData).auto_update = true := by
  cases initialData with
  | none => rfl
  | some d =>
    show jsOrBool (some d.auto_update) true = true
    cases d.auto_update <;> rfl

/-- Claim C10: formatDate is total; every falsy argument (null, undefined
or the empty string) yields N/A, every non-empty string that does not
parse yields Date invalide, and every string parsing to a valid date
yields the Intl-formatted date. -/
theorem formatDate_total_spec (parseDate : String → Option Int) (intlFormat : Int → String)
    (v : JsValue) :
    (jsFalsy v = true → formatDate parseDate intlFormat v = "N/A") ∧
    (∀ s, v = JsValue.str s → s ≠ "" → parseDate s = none →
        formatDate parseDate intlFormat v = "Date invalide") ∧
    (∀ s t, v = JsValue.str s → s ≠ "" → parseDate s = some t →
        formatDate parseDate intlFormat v = intlFormat t) := by
  refine ⟨?_, ?_, ?_⟩
  · intro hf
    cases v with
    | null => rfl
    | undefined => rfl
    | str s =>
      have hs : s = "" := by simpa [jsFalsy] using hf
      simp [formatDate, hs]
  · intro s hv hs hp
    subst hv
    simp [formatDate, hs, hp]
  · intro s t hv hs hp
    subst hv
    simp [formatDate, hs, hp]

/-- Claim C10 witness: concrete falsy, unparsable and parsable inputs. -/
theorem formatDate_total_spec_witness :
    formatDate c10ParseDate c10IntlFormat JsValue.null = "N/A" ∧
    formatDate c10ParseDate c10IntlFormat (JsValue.str "") = "N/A" ∧
    formatDate c10ParseDate c10IntlFormat (JsValue.str "not-a-date") = "Date invalide" ∧
    formatDate c10ParseDate c10IntlFormat (JsValue.str "2024-01-01T00:00:00Z")
      = "1 janv. 2024, 00:00" := by
  refine ⟨?_, ?_, ?_, ?_⟩
  · exact (formatDate_total_spec c10ParseDate c10IntlFormat JsValue.null).1 rfl
  · exact (formatDate_total_spec c10ParseDate c10IntlFormat (JsValue.str "")).1 (by decide)
  · exact (formatDate_total_spec c10ParseDate c10IntlFormat
      (JsValue.str "not-a-date")).2.1 "not-a-date" rfl (by decide) (by decide)
  · exact (formatDate_total_spec c10ParseDate c10IntlFormat
      (JsValue.str "2024-01-01T00:00:00Z")).2.2 "2024-01-01T00:00:00Z" 1704067200 rfl
      (by decide) (by decide)

/-- Claim C8 counterexample: the dns and logs API wrappers rethrow a 401
without clearing the session — the stored bearer token survives — so it
is not the case that every API call receiving a 401 clears the session. -/
theorem not_every_call_clears_session_on_401 :
    ¬ (∀ h ∈ clientErrorHandlers, ∀ s : SessionState, sessionCleared (h 401 s)) := by
  intro hall
  have hmem : apiCatchAndRethrow ∈ clientErrorHandlers :=
    List.mem_cons_of_mem fetchUserOnError (List.mem_cons_self apiCatchAndRethrow [])
  have h1 := hall apiCatchAndRethrow hmem c8Session
  have h2 : c8Session.localStorageToken = none := h1.1
  simp [c8Session] at h2

/-- Claim C8 amended: a 401 on the fetchUser profile call clears the
session — the stored bearer token is removed, the user state is reset,
the axios Authorization default header is deleted, and the request
interceptor attaches no Authorization header afterwards — while the dns
and logs API wrappers never mutate the session for any status. -/
theorem fetchUser_401_clears_session (s : SessionState) :
    fetchUserOnError 401 s = logout s ∧
    (fetchUserOnError 401 s).localStorageToken = none ∧
    (fetchUserOnError 401 s).user = none ∧
    (fetchUserOnError 401 s).axiosAuthHeader = none ∧
    attachAuthHeader (fetchUserOnError 401 s) = none ∧
    (∀ status : Nat, apiCatchAndRethrow status s = s) := by
  refine ⟨rfl, rfl, rfl, rfl, rfl, fun _ => rfl⟩

/-- Claim C1 counterexample: an A record already equal to the observed
public IP — both consecutive runs skip, so zero provider update calls are
issued in total, not exactly one. -/
theorem reconcile_twice_counterexample :
    (c1RecordInSync.record_type = RecordType.A ∨ c1RecordInSync.record_type = RecordType.AAAA) ∧
    (reconcile c1Gateway c1RecordInSync 0).providerCalls
        + (reconcile c1Gateway (reconcile c1Gateway c1RecordInSync 0).record 1).providerCalls
      ≠ 1 := by
  decide

/-- Claim C1 amended: for every A/AAAA record that is not already up to
date with the observed IP and whose provider update succeeds, two
consecutive reconcile runs with an unchanged observed IP issue exactly
one provider update call in total — the first run updates, and the second
run finds the returned IP equal to last_updated_ip and content and skips
without any provider call. -/
theorem reconcile_twice_single_call (gw : Gateway) (r : DnsRecord) (now1 now2 : Nat)
    (ht : r.record_type = RecordType.A ∨ r.record_type = RecordType.AAAA)
    (hok : gw.updateResult r.provider_record_id = Except.ok ())
    (hstale : ¬ upToDate gw.currentIp r) :
    (reconcile gw r now1).providerCalls = 1 ∧
    (reconcile gw (reconcile gw r now1).record now2).providerCalls = 0 ∧
    (reconcile gw (reconcile gw r now1).record now2).outcome = ReconcileOutcome.skipped ∧
    upToDate gw.currentIp (reconcile gw r now1).record ∧
    (reconcile gw r now1).providerCalls
        + (reconcile gw (reconcile gw r now1).record now2).providerCalls = 1 := by
  have h1 : reconcile gw r now1
      = ⟨ReconcileOutcome.updated, applyIpUpdate gw.currentIp now1 r,
         [successLog r gw.currentIp], 1⟩ := by
    rw [reconcile_eq_step gw r now1 ht, reconcileStep_of_ok gw gw.currentIp now1 r hstale hok]
  have ht2 : (applyIpUpdate gw.currentIp now1 r).record_type = RecordType.A ∨
      (applyIpUpdate gw.currentIp now1 r).record_type = RecordType.AAAA := by
    rw [applyIpUpdate_record_type]
    exact ht
  have h2 : reconcile gw (applyIpUpdate gw.currentIp now1 r) now2
      = ⟨ReconcileOutcome.skipped, applyIpUpdate gw.currentIp now1 r, [], 0⟩ := by
    rw [reconcile_eq_step gw _ now2 ht2,
      reconcileStep_of_upToDate gw gw.currentIp now2 _ (upToDate_applyIpUpdate gw.currentIp now1 r)]
  simp [h1, h2, upToDate_applyIpUpdate]

/-- Claim C1 witness: a concrete stale A record with a succeeding
provider. -/
theorem reconcile_twice_single_call_witness :
    (¬ upToDate c1Gateway.currentIp c1RecordStale) ∧
    (reconcile c1Gateway c1RecordStale 0).providerCalls = 1 ∧
    (reconcile c1Gateway (reconcile c1Gateway c1RecordStale 0).record 1).providerCalls = 0 ∧
    (reconcile c1Gateway (reconcile c1Gateway c1RecordStale 0).record 1).outcome
      = ReconcileOutcome.skipped := by
  have h := reconcile_twice_single_call c1Gateway c1RecordStale 0 1 (Or.inl rfl) rfl (by decide)
  exact ⟨by decide, h.1, h.2.1, h.2.2.1⟩

/-- Claim C4: when the provider update fails during reconcile, an ERROR
log entry naming the record and the failure reason is appended, the
stored record is unchanged in every field, the failure is returned as the
per-record outcome value, and a batch containing the record still
processes the sibling records after it. -/
theorem reconcile_failure_frame (gw : Gateway) (r : DnsRecord) (now : Nat) (e : String)
    (ht : r.record_type = RecordType.A ∨ r.record_type = RecordType.AAAA)
    (hstale : ¬ upToDate gw.currentIp r)
    (he : gw.updateResult r.provider_record_id = Except.error e) :
    (reconcile gw r now).outcome = ReconcileOutcome.failed e ∧
    (reconcile gw r now).record = r ∧
    (reconcile gw r now).logs = [errorLog r e] ∧
    (errorLog r e).level = LogLevel.ERROR ∧
    (errorLog r e).message = "Failed to update record " ++ r.record_name ++ ": " ++ e ∧
    (∀ rest : List DnsRecord,
      (reconcileAllGo gw gw.currentIp now (r :: rest)).records
        = (reconcileAllGo gw gw.currentIp now [r]).records
            ++ (reconcileAllGo gw gw.currentIp now rest).records) := by
  have hr : reconcile gw r now = ⟨ReconcileOutcome.failed e, r, [errorLog r e], 1⟩ := by
    rw [reconcile_eq_step gw r now ht, reconcileStep_of_error gw gw.currentIp now r e hstale he]
  rw [hr]
  refine ⟨rfl, rfl, rfl, rfl, rfl, ?_⟩
  intro rest
  simp [reconcileAllGo]

/-- Claim C4 witness: a concrete stale AAAA record with a failing
provider. -/
theorem reconcile_failure_frame_witness :
    (¬ upToDate c4Gateway.currentIp c4Record) ∧
    (reconcile c4Gateway c4Record 7).outcome
      = ReconcileOutcome.failed "cloudflare: invalid token" ∧
    (reconcile c4Gateway c4Record 7).record = c4Record ∧
    (reconcile c4Gateway c4Record 7).logs
      = [errorLog c4Record "cloudflare: invalid token"] := by
  have h := reconcile_failure_frame c4Gateway c4Record 7 "cloudflare: invalid token"
    (Or.inr rfl) (by decide) rfl
  exact ⟨by decide, h.1, h.2.1, h.2.2.1⟩

/-- Claim C5: deleteRecord issues the provider delete call, and when that
call fails the Record Store is unchanged — the record is still present —
and the failure is surfaced to the caller as an explicit result. -/
theorem deleteRecord_provider_failure_retains (gw : Gateway) (store : List DnsRecord)
    (recId : Nat) (r : DnsRecord) (e : String)
    (hfind : store.find? (fun q => q.id == recId) = some r)
    (hdel : gw.deleteResult r.provider_record_id = Except.error e) :
    (deleteRecord gw store recId).store = store ∧
    (deleteRecord gw store recId).result = Except.error e ∧
    (deleteRecord gw store recId).providerCalls = 1 ∧
    r ∈ (deleteRecord gw store recId).store := by
  have hd : deleteRecord gw store recId
      = ⟨store, Except.error e, 1,
         [⟨LogLevel.ERROR, "Failed to delete record " ++ r.record_name ++ ": " ++ e, none⟩]⟩ := by
    simp only [deleteRecord, hfind, hdel]
  rw [hd]
  exact ⟨rfl, rfl, rfl, List.mem_of_find?_eq_some hfind⟩

/-- Claim C5 witness: a concrete store whose provider delete fails. -/
theorem deleteRecord_provider_failure_retains_witness :
    (c5Store.find? (fun q => q.id == 5) = some c5Record) ∧
    (deleteRecord c5Gateway c5Store 5).store = c5Store ∧
    (deleteRecord c5Gateway c5Store 5).result = Except.error "cloudflare: delete failed" ∧
    c5Record ∈ (deleteRecord c5Gateway c5Store 5).store := by
  have h := deleteRecord_provider_failure_retains c5Gateway c5Store 5 c5Record
    "cloudflare: delete failed" rfl rfl
  exact ⟨rfl, h.1, h.2.1, h.2.2.2⟩

/-- Claim C6: for a valid create request, a provider create failure
leaves the Record Store exactly as before the call, while a provider
success persists exactly one new local row carrying the provider-returned
record id. -/
theorem createRecord_provider_outcome (gw : Gateway) (store : List DnsRecord)
    (owner nextId : Nat) (d : CreateData) (now : Nat)
    (hv : validateWrite d = Except.ok ()) :
    (∀ e, gw.createResult = Except.error e →
        (createRecord gw store owner nextId d now).store = store ∧
        (createRecord gw store owner nextId d now).result = Except.error e) ∧
    (∀ pid, gw.createResult = Except.ok pid →
        (createRecord gw store owner nextId d now).store
          = store ++ [mkDnsRecord owner nextId d pid now] ∧
        (createRecord gw store owner nextId d now).result = Except.ok () ∧
        (mkDnsRecord owner nextId d pid now).provider_record_id = pid) := by
  constructor
  · intro e he
    have hc : createRecord gw store owner nextId d now
        = ⟨store, Except.error e, 1,
           [⟨LogLevel.ERROR, "Failed to create record " ++ d.record_name ++ ": " ++ e, none⟩]⟩ := by
      simp only [createRecord, hv, he]
    rw [hc]
    exact ⟨rfl, rfl⟩
  · intro pid hp
    have hc : createRecord gw store owner nextId d now
        = ⟨store ++ [mkDnsRecord owner nextId d pid now], Except.ok (), 1,
           [⟨LogLevel.SUCCESS, "Created record " ++ d.record_name, none⟩]⟩ := by
      simp only [createRecord, hv, hp]
    rw [hc]
    exact ⟨rfl, rfl, rfl⟩

/-- Claim C6 witness: a concrete valid request against a failing and a
succeeding provider create. -/
theorem createRecord_provider_outcome_witness :
    validateWrite c6Data = Except.ok () ∧
    (createRecord c6FailGateway [] 1 7 c6Data 5).store = ([] : List DnsRecord) ∧
    (createRecord c6Gateway [] 1 7 c6Data 5).store = [mkDnsRecord 1 7 c6Data "cf-created" 5] := by
  have hfail := (createRecord_provider_outcome c6FailGateway [] 1 7 c6Data 5 rfl).1
    "cloudflare: create failed" rfl
  have hok := (createRecord_provider_outcome c6Gateway [] 1 7 c6Data 5 rfl).2
    "cf-created" rfl
  refine ⟨rfl, hfail.1, ?_⟩
  rw [hok.1]
  rfl

/-- An invalid write per the DnsRecord invariants is rejected by the
write-time validation. -/
lemma validateWrite_rejects (d : CreateData)
    (hbad : (d.auto_update = true ∧ ¬ addressType d.record_type) ∨
        (d.content = "" ∧ ((d.auto_update = false ∧ addressType d.record_type) ∨
            ¬ addressType d.record_type))) :
    ∃ e, validateWrite d = Except.error e := by
  unfold validateWrite
  split_ifs with h1 h2
  · exact ⟨_, rfl⟩
  · exact ⟨_, rfl⟩
  · rcases hbad with hb | hb
    · exact absurd hb h1
    · exact absurd hb h2

/-- Claim C7: a write that violates the DnsRecord invariants —
auto_update set on a non-A/AAAA type, or empty content for a manual
A/AAAA record or for any non-A/AAAA record — is rejected before any
external call: the creation path returns an error, issues zero provider
calls and leaves the store unchanged. -/
theorem createRecord_validates_before_provider (gw : Gateway) (store : List DnsRecord)
    (owner nextId : Nat) (d : CreateData) (now : Nat)
    (hbad : (d.auto_update = true ∧ ¬ addressType d.record_type) ∨
        (d.content = "" ∧ ((d.auto_update = false ∧ addressType d.record_type) ∨
            ¬ addressType d.record_type))) :
    (∃ e, (createRecord gw store owner nextId d now).result = Except.error e) ∧
    (createRecord gw store owner nextId d now).providerCalls = 0 ∧
    (createRecord gw store owner nextId d now).store = store := by
  obtain ⟨e, he⟩ := validateWrite_rejects d hbad
  have hc : createRecord gw store owner nextId d now = ⟨store, Except.error e, 0, []⟩ := by
    simp only [createRecord, he]
  rw [hc]
  exact ⟨⟨e, rfl⟩, rfl, rfl⟩

/-- Claim C7 witness: auto_update on a TXT record, and empty content on a
manual A record, are both rejected with no provider call. -/
theorem createRecord_validates_before_provider_witness :
    (c7BadData.auto_update = true ∧ ¬ addressType c7BadData.record_type) ∧
    (createRecord c7Gateway [] 1 7 c7BadData 5).providerCalls = 0 ∧
    (createRecord c7Gateway [] 1 7 c7BadData 5).store = ([] : List DnsRecord) ∧
    (c7EmptyData.content = "" ∧ c7EmptyData.auto_update = false ∧
        addressType c7EmptyData.record_type) ∧
    (createRecord c7Gateway [] 1 8 c7EmptyData 5).providerCalls = 0 ∧
    (createRecord c7Gateway [] 1 8 c7EmptyData 5).store = ([] : List DnsRecord) := by
  have h1 := createRecord_validates_before_provider c7Gateway [] 1 7 c7BadData 5
    (Or.inl (by decide))
  have h2 := createRecord_validates_before_provider c7Gateway [] 1 8 c7EmptyData 5
    (Or.inr ⟨rfl, Or.inl (by decide)⟩)
  exact ⟨by decide, h1.2.1, h1.2.2, by decide, h2.2.1, h2.2.2⟩

/-- Characterization of the batch run over eligible, out-of-sync records:
skipped is zero, the updated and failed counts are the counts of
succeeding and failing provider calls, the failure list names exactly the
failing records with their reasons, and each record is updated exactly
when its provider call succeeds. -/
lemma reconcileAllGo_all_stale (gw : Gateway) (ip : String) (now : Nat) :
    ∀ records : List DnsRecord,
      (∀ r ∈ records, eligible r = true) →
      (∀ r ∈ records, ¬ upToDate ip r) →
      (reconcileAllGo gw ip now records).summary.updated
          = records.countP (fun r => !isProviderError (gw.updateResult r.provider_record_id)) ∧
      (reconcileAllGo gw ip now records).summary.skipped = 0 ∧
      (reconcileAllGo gw ip now records).summary.failed
          = records.countP (fun r => isProviderError (gw.updateResult r.provider_record_id)) ∧
      (reconcileAllGo gw ip now records).summary.failures
          = (records.filter (fun r => isProviderError (gw.updateResult r.provider_record_id))).map
              (fun r => (r.id, providerErrMsg (gw.updateResult r.provider_record_id))) ∧
      (reconcileAllGo gw ip now records).records
          = records.map (fun r =>
              if isProviderError (gw.updateResult r.provider_record_id) then r
              else applyIpUpdate ip now r) := by
  intro records
  induction records with
  | nil =>
    intro _ _
    simp [reconcileAllGo]
  | cons r rest ih =>
    intro helig hstale
    have hr : eligible r = true := helig r (List.mem_cons_self r rest)
    have hu : ¬ upToDate ip r := hstale r (List.mem_cons_self r rest)
    obtain ⟨ih1, ih2, ih3, ih4, ih5⟩ :=
      ih (fun q hq => helig q (List.mem_cons_of_mem r hq))
        (fun q hq => hstale q (List.mem_cons_of_mem r hq))
    cases hcall : gw.updateResult r.provider_record_id with
    | ok u =>
      cases u
      have hstep := reconcileStep_of_ok gw ip now r hu hcall
      refine ⟨?_, ?_, ?_, ?_, ?_⟩ <;>
        simp [reconcileAllGo, hr, hstep, hcall, isProviderError, providerErrMsg,
          outcomeUpdatedCount, outcomeSkippedCount, outcomeFailedCount, outcomeFailureList,
          List.countP_cons, ih1, ih2, ih3, ih4, ih5, Nat.add_comm]
    | error e =>
      have hstep := reconcileStep_of_error gw ip now r e hu hcall
      refine ⟨?_, ?_, ?_, ?_, ?_⟩ <;>
        simp [reconcileAllGo, hr, hstep, hcall, isProviderError, providerErrMsg,
          outcomeUpdatedCount, outcomeSkippedCount, outcomeFailedCount, outcomeFailureList,
          List.countP_cons, ih1, ih2, ih3, ih4, ih5, Nat.add_comm]

/-- Claim C3 counterexample: a batch of two auto-update A records in
which exactly one provider update call fails, but the other record is
already up to date — the batch returns updated = 0, not N - 1 = 1. -/
theorem reconcileAll_partial_failure_counterexample :
    (∀ r ∈ [c3InSyncRecord, c3BadRecord], eligible r = true) ∧
    ([c3InSyncRecord, c3BadRecord].countP
        (fun r => isProviderError (c3Gateway.updateResult r.provider_record_id)) = 1) ∧
    (reconcileAll c3Gateway [c3InSyncRecord, c3BadRecord] 0).summary.updated
        ≠ [c3InSyncRecord, c3BadRecord].length - 1 := by
  decide

/-- Claim C3 amended: for every batch of auto_update-enabled A/AAAA
records, all out of sync with the observed IP, in which exactly one
record has a failing provider update call, reconcileAll continues past
the failure and returns updated = N - 1, skipped = 0 and failed = 1, the
failure list names exactly the failing record with its reason, and every
record whose provider call succeeds is updated, whatever the iteration
order of the batch. -/
theorem reconcileAll_partial_failure (gw : Gateway) (records : List DnsRecord) (now : Nat)
    (helig : ∀ r ∈ records, eligible r = true)
    (hstale : ∀ r ∈ records, ¬ upToDate gw.currentIp r)
    (hone : records.countP (fun r => isProviderError (gw.updateResult r.provider_record_id)) = 1) :
    (reconcileAll gw records now).summary.updated = records.length - 1 ∧
    (reconcileAll gw records now).summary.failed = 1 ∧
    (reconcileAll gw records now).summary.skipped = 0 ∧
    (reconcileAll gw records now).summary.failures
        = (records.filter (fun r => isProviderError (gw.updateResult r.provider_record_id))).map
            (fun r => (r.id, providerErrMsg (gw.updateResult r.provider_record_id))) ∧
    (records.filter (fun r => isProviderError (gw.updateResult r.provider_record_id))).length
        = 1 ∧
    (reconcileAll gw records now).records
        = records.map (fun r =>
            if isProviderError (gw.updateResult r.provider_record_id) then r
            else applyIpUpdate gw.currentIp now r) := by
  obtain ⟨h1, h2, h3, h4, h5⟩ :=
    reconcileAllGo_all_stale gw gw.currentIp now records helig hstale
  have hsum : (reconcileAll gw records now).summary
      = (reconcileAllGo gw gw.currentIp now records).summary := rfl
  have hrecs : (reconcileAll gw records now).records
      = (reconcileAllGo gw gw.currentIp now records).records := rfl
  have hlen : records.length
      = records.countP (fun r => isProviderError (gw.updateResult r.provider_record_id))
        + records.countP (fun r => !isProviderError (gw.updateResult r.provider_record_id)) := by
    simpa using
      List.length_eq_countP_add_countP
        (l := records) (p := fun r => isProviderError (gw.updateResult r.provider_record_id))
  have hfilterlen :
      (records.filter (fun r => isProviderError (gw.updateResult r.provider_record_id))).length
        = 1 := by
    rw [← List.countP_eq_length_filter]
    exact hone
  refine ⟨?_, ?_, ?_, ?_, hfilterlen, ?_⟩
  · rw [hsum, h1]
    omega
  · rw [hsum, h3, hone]
  · rw [hsum, h2]
  · rw [hsum, h4]
  · rw [hrecs, h5]

/-- Claim C3 witness: a concrete batch of two out-of-sync auto-update A
records with exactly one failing provider call. -/
theorem reconcileAll_partial_failure_witness :
    ([c3GoodRecord, c3BadRecord].countP
        (fun r => isProviderError (c3Gateway.updateResult r.provider_record_id)) = 1) ∧
    (reconcileAll c3Gateway [c3GoodRecord, c3BadRecord] 0).summary.updated = 1 ∧
    (reconcileAll c3Gateway [c3GoodRecord, c3BadRecord] 0).summary.failed = 1 ∧
    (reconcileAll c3Gateway [c3GoodRecord, c3BadRecord] 0).summary.failures
        = [(2, "provider rejected the update")] := by
  have h := reconcileAll_partial_failure c3Gateway [c3GoodRecord, c3BadRecord] 0
    (by decide) (by decide) (by decide)
  refine ⟨by decide, ?_, h.2.1, ?_⟩
  · have := h.1
    simpa using this
  · rw [h.2.2.2.1]
    decide
